import Mathlib

/-!
Verification of the map_transformer geometric engine (osrf/map_transformer).

This file is a shallow embedding, over exact rational arithmetic, of
`src/transformer.cpp` together with the data model of
`include/map_transformer/transformer.hpp`.  The C++ `Point2D` is a pair of
floating-point numbers; here points are pairs of rationals, which realises the
exact-arithmetic reading of the specification.  The two external collaborators
that the engine calls into are represented explicitly:

* the filesystem / image decoder used by `_validate` is an `ImageFS` oracle;
* the planar subdivision (`cv::Subdiv2D`) is represented by the raw triangle
  list (`List RawTri`) that `getTriangleList` hands back to
  `subdivide_and_index_triangles`, passed as a parameter to `load`;
* `std::cos` / `std::sin` are abstract functions `cF sF : Rat -> Rat` passed to
  the query functions.

Everything else is translated clause by clause from the C++ source.
-/

namespace MapTransformer

/-- A 2-D point, `Point2D = std::pair<float, float>` in the source, embedded
over the rationals (exact arithmetic). -/
abbrev Point2D : Type := Rat × Rat

/-- `Vector2D = std::pair<float, float>` in the source. -/
abbrev Vector2D : Type := Rat × Rat

/-- `Triangle = std::tuple<int, int, int>`: indices into the correspondence
point lists.  The code only ever stores results of `std::distance`, which are
non-negative, so natural numbers are used. -/
abbrev Triangle : Type := Nat × Nat × Nat

/-- A raw triangle as returned by `cv::Subdiv2D::getTriangleList`
(a `cv::Vec6f`: three vertex coordinate pairs). -/
abbrev RawTri : Type := Point2D × Point2D × Point2D

/-- The two error kinds of the engine: `std::logic_error` and
`std::runtime_error` thrown by `transformer.cpp`. -/
inductive LoadErr where
  | logicFault (msg : String) : LoadErr
  | inputFault (msg : String) : LoadErr
deriving DecidableEq, Repr

/-- A 2x3 affine matrix, the `cv::Mat` produced by `cv::getAffineTransform`. -/
structure Mat23 where
  a00 : Rat
  a01 : Rat
  a02 : Rat
  a10 : Rat
  a11 : Rat
  a12 : Rat
deriving DecidableEq, Repr

/-- Applying a 2x3 affine matrix to a point, exactly as the bodies of
`Transformer::to_ref` / `Transformer::to_robot` compute it:
`(A00*x + A01*y + A02, A10*x + A11*y + A12)`. -/
def Mat23.apply (m : Mat23) (p : Point2D) : Point2D :=
  (m.a00 * p.1 + m.a01 * p.2 + m.a02, m.a10 * p.1 + m.a11 * p.2 + m.a12)

/-- The zero matrix; stands for the indeterminate `cv::Mat` read when the C++
code would index a transform vector out of bounds. -/
def Mat23.zero : Mat23 :=
  { a00 := 0, a01 := 0, a02 := 0, a10 := 0, a11 := 0, a12 := 0 }

/-- 2-D cross product (signed area test), the primitive underlying both the
containment test and the affine solve. -/
def cross2 (u v : Point2D) : Rat :=
  u.1 * v.2 - u.2 * v.1

/-- Embedding of `cv::pointPolygonTest(contour, p, false) >= 0` for a triangle
contour: `p` lies inside the triangle or on its boundary.  The test is the
standard signed-area check: all three edge cross products have the same
(non-strict) sign. -/
def point_in_triangle (a b c p : Point2D) : Bool :=
  let d1 := cross2 (b - a) (p - a)
  let d2 := cross2 (c - b) (p - b)
  let d3 := cross2 (a - c) (p - c)
  (0 ≤ d1 && 0 ≤ d2 && 0 ≤ d3) || (d1 ≤ 0 && d2 ≤ 0 && d3 ≤ 0)

/-- Strict interior of a triangle (`cv::pointPolygonTest > 0`): all three edge
cross products share a strict sign. -/
def strictly_inside (a b c p : Point2D) : Bool :=
  let d1 := cross2 (b - a) (p - a)
  let d2 := cross2 (c - b) (p - b)
  let d3 := cross2 (a - c) (p - c)
  (0 < d1 && 0 < d2 && 0 < d3) || (d1 < 0 && d2 < 0 && d3 < 0)

/-- Embedding of `std::find` followed by `std::distance`: the index of the
first element equal to `v`, if any. -/
def findIndexFrom (v : Point2D) : List Point2D → Option Nat
  | [] => none
  | q :: rest => if q = v then some 0 else (findIndexFrom v rest).map (· + 1)

/-- First index in a list satisfying a predicate; embeds the
`for (ii = 0; ...)` search loops of the source. -/
def firstIdxWhere (p : α → Bool) : List α → Option Nat
  | [] => none
  | a :: rest => if p a then some 0 else (firstIdxWhere p rest).map (· + 1)

/-- Embedding of `cv::getAffineTransform(src, dst)`: the unique affine map
sending the source triangle `(s0, s1, s2)` onto the destination triangle
`(d0, d1, d2)`, obtained by solving the six-equation linear system exactly
(Cramer on the edge vectors).  For a degenerate source triangle the system has
no unique solution; division by the zero determinant then produces junk
values, matching the indeterminate output of the C++ call. -/
def getAffineTransform (s0 s1 s2 d0 d1 d2 : Point2D) : Mat23 :=
  let det := cross2 (s1 - s0) (s2 - s0)
  let a00 := ((d1.1 - d0.1) * (s2.2 - s0.2) - (d2.1 - d0.1) * (s1.2 - s0.2)) / det
  let a01 := ((d2.1 - d0.1) * (s1.1 - s0.1) - (d1.1 - d0.1) * (s2.1 - s0.1)) / det
  let a10 := ((d1.2 - d0.2) * (s2.2 - s0.2) - (d2.2 - d0.2) * (s1.2 - s0.2)) / det
  let a11 := ((d2.2 - d0.2) * (s1.1 - s0.1) - (d1.2 - d0.2) * (s2.1 - s0.1)) / det
  { a00 := a00, a01 := a01, a02 := d0.1 - (a00 * s0.1 + a01 * s0.2),
    a10 := a10, a11 := a11, a12 := d0.2 - (a10 * s0.1 + a11 * s0.2) }

/-- The state of a `map_transformer::Transformer` instance: every data member
of the C++ class, in declaration order. -/
structure Transformer where
  ref_map_name : String
  ref_map_image_file : String
  ref_map_size : Vector2D
  robot_map_name : String
  robot_map_image_file : String
  robot_map_size : Vector2D
  robot_map_scale : Vector2D
  robot_map_rotation : Rat
  robot_map_translation : Vector2D
  ref_corr_points : List Point2D
  robot_corr_points : List Point2D
  triangles : List Triangle
  to_ref_transforms : List Mat23
  to_robot_transforms : List Mat23
deriving DecidableEq, Repr

namespace Transformer

/-- A freshly constructed `Transformer()`: the default-constructed members
followed by the constructor's call to `reset()`. -/
def fresh : Transformer :=
  { ref_map_name := ""
    ref_map_image_file := ""
    ref_map_size := (0, 0)
    robot_map_name := ""
    robot_map_image_file := ""
    robot_map_size := (0, 0)
    robot_map_scale := (1, 1)
    robot_map_rotation := 0
    robot_map_translation := (0, 0)
    ref_corr_points := []
    robot_corr_points := []
    triangles := []
    to_ref_transforms := []
    to_robot_transforms := [] }

/-- `Transformer::reset()`, field assignment for field assignment.  Note: the
function clears `_triangles` but does not touch `_to_ref_transforms` or
`_to_robot_transforms`. -/
def reset (t : Transformer) : Transformer :=
  { t with
    ref_map_name := ""
    ref_map_image_file := ""
    ref_map_size := (0, 0)
    robot_map_name := ""
    robot_map_image_file := ""
    robot_map_size := (0, 0)
    robot_map_scale := (1, 1)
    robot_map_rotation := 0
    robot_map_translation := (0, 0)
    ref_corr_points := []
    robot_corr_points := []
    triangles := [] }

/-- `Transformer::_empty()`: the conjunction of field comparisons exactly as
written in the source (the two transform vectors are not inspected). -/
def emptyCheck (t : Transformer) : Bool :=
  t.ref_map_name = "" &&
  t.ref_map_image_file = "" &&
  t.ref_map_size = ((0 : Rat), (0 : Rat)) &&
  t.robot_map_name = "" &&
  t.robot_map_image_file = "" &&
  t.robot_map_size = ((0 : Rat), (0 : Rat)) &&
  t.robot_map_scale = ((1 : Rat), (1 : Rat)) &&
  t.robot_map_rotation = 0 &&
  t.robot_map_translation = ((0 : Rat), (0 : Rat)) &&
  t.ref_corr_points = [] &&
  t.robot_corr_points = [] &&
  t.triangles = []

/-- `Transformer::bounding_box()`. -/
def bounding_box (t : Transformer) : Point2D × Point2D :=
  ((min 0 t.robot_map_translation.1, min 0 t.robot_map_translation.2),
   (max t.ref_map_size.1 (t.robot_map_size.1 + t.robot_map_translation.1),
    max t.ref_map_size.2 (t.robot_map_size.2 + t.robot_map_translation.2)))

end Transformer

/-- `Transformer::get_correspondence_point_index`: index of the first
correspondence point component-wise equal to `point`, or `-1`. -/
def get_correspondence_point_index (point : Point2D) (points : List Point2D) : Int :=
  match findIndexFrom point points with
  | some i => (i : Int)
  | none => -1

/-- The three vertices of a triangle looked up in a correspondence-point list,
`Transformer::triangle_points`.  The C++ code indexes the vector without a
bounds check; an out-of-range index here yields the origin. -/
def triangle_points (tri : Triangle) (points : List Point2D) :
    Point2D × Point2D × Point2D :=
  (points.getD tri.1 (0, 0), points.getD tri.2.1 (0, 0), points.getD tri.2.2 (0, 0))

namespace Transformer

/-- `Transformer::find_containing_triangle_in_robot`: first triangle (in list
order) whose robot-frame vertices contain the point, or `-1`. -/
def find_containing_triangle_in_robot (t : Transformer) (p : Point2D) : Int :=
  match firstIdxWhere (fun tri =>
      let v := triangle_points tri t.robot_corr_points
      point_in_triangle v.1 v.2.1 v.2.2 p) t.triangles with
  | some i => (i : Int)
  | none => -1

/-- `Transformer::find_containing_triangle_in_ref`. -/
def find_containing_triangle_in_ref (t : Transformer) (p : Point2D) : Int :=
  match firstIdxWhere (fun tri =>
      let v := triangle_points tri t.ref_corr_points
      point_in_triangle v.1 v.2.1 v.2.2 p) t.triangles with
  | some i => (i : Int)
  | none => -1

/-- `Transformer::transform_to_ref_by_map_transform`: scale, then (when the
rotation is non-zero) rotate by `+rotation`, then add the translation.
`cF` and `sF` stand for the external `std::cos` / `std::sin`. -/
def transform_to_ref_by_map_transform (cF sF : Rat → Rat) (t : Transformer)
    (p : Point2D) : Point2D :=
  let scaled : Point2D := (p.1 * t.robot_map_scale.1, p.2 * t.robot_map_scale.2)
  let rotated : Point2D :=
    if t.robot_map_rotation ≠ 0 then
      (cF t.robot_map_rotation * scaled.1 - sF t.robot_map_rotation * scaled.2,
       sF t.robot_map_rotation * scaled.1 + cF t.robot_map_rotation * scaled.2)
    else scaled
  (rotated.1 + t.robot_map_translation.1, rotated.2 + t.robot_map_translation.2)

/-- `Transformer::transform_from_ref_by_map_transform`: divide by the scale,
then (when the rotation is non-zero) rotate by `-rotation`, then subtract the
translation. -/
def transform_from_ref_by_map_transform (cF sF : Rat → Rat) (t : Transformer)
    (p : Point2D) : Point2D :=
  let scaled : Point2D := (p.1 / t.robot_map_scale.1, p.2 / t.robot_map_scale.2)
  let rotated : Point2D :=
    if t.robot_map_rotation ≠ 0 then
      (cF (-t.robot_map_rotation) * scaled.1 - sF (-t.robot_map_rotation) * scaled.2,
       sF (-t.robot_map_rotation) * scaled.1 + cF (-t.robot_map_rotation) * scaled.2)
    else scaled
  (rotated.1 - t.robot_map_translation.1, rotated.2 - t.robot_map_translation.2)

/-- `Transformer::to_ref`. -/
def to_ref (cF sF : Rat → Rat) (t : Transformer) (point : Point2D) : Point2D :=
  let corr_point_index := get_correspondence_point_index point t.robot_corr_points
  if 0 ≤ corr_point_index then
    t.ref_corr_points.getD corr_point_index.toNat (0, 0)
  else
    let containing_triangle := t.find_containing_triangle_in_robot point
    if containing_triangle < 0 then
      t.transform_to_ref_by_map_transform cF sF point
    else
      (t.to_ref_transforms.getD containing_triangle.toNat Mat23.zero).apply point

/-- `Transformer::to_robot`. -/
def to_robot (cF sF : Rat → Rat) (t : Transformer) (point : Point2D) : Point2D :=
  let corr_point_index := get_correspondence_point_index point t.ref_corr_points
  if 0 ≤ corr_point_index then
    t.robot_corr_points.getD corr_point_index.toNat (0, 0)
  else
    let containing_triangle := t.find_containing_triangle_in_ref point
    if containing_triangle < 0 then
      t.transform_from_ref_by_map_transform cF sF point
    else
      (t.to_robot_transforms.getD containing_triangle.toNat Mat23.zero).apply point

end Transformer

/-- The filesystem / image-decoder oracle used by `Transformer::_validate`:
`fileExists path` embeds `std::filesystem::exists && is_regular_file`, and
`readImage path` embeds `cv::imread`, returning the decoded `(cols, rows)` or
`none` when the image is empty. -/
structure ImageFS where
  fileExists : String → Bool
  readImage : String → Option (Rat × Rat)

namespace Transformer

/-- `Transformer::_validate()`, check for check in source order: reference
correspondence points present, robot correspondence points present, equal
counts, rectangle overlap, non-zero scale, image files exist, image
dimensions match.  The first failing check produces the (single) error. -/
def validate (fs : ImageFS) (t : Transformer) : Option LoadErr :=
  if t.ref_corr_points = [] then
    some (.inputFault ("No reference map correspondence points provided"))
  else if t.robot_corr_points = [] then
    some (.inputFault ("No robot map correspondence points provided"))
  else if t.ref_corr_points.length ≠ t.robot_corr_points.length then
    some (.inputFault ("Number of reference correspondence points and number of robot correspondence points do not match"))
  else if t.robot_map_translation.1 > t.ref_map_size.1 ∨
      t.robot_map_translation.2 > t.ref_map_size.2 ∨
      t.robot_map_translation.1 + t.robot_map_size.1 < 0 ∨
      t.robot_map_translation.2 + t.robot_map_size.2 < 0 then
    some (.inputFault ("Reference map and robot map do not overlap"))
  else if t.robot_map_scale.1 = 0 ∨ t.robot_map_scale.2 = 0 then
    some (.inputFault ("Invalid scale value: 0"))
  else if t.ref_map_image_file ≠ "" ∧ ¬ fs.fileExists t.ref_map_image_file then
    some (.inputFault ("Reference map image file does not exist or is not accessible"))
  else if t.robot_map_image_file ≠ "" ∧ ¬ fs.fileExists t.robot_map_image_file then
    some (.inputFault ("Robot map image file does not exist or is not accessible"))
  else if t.ref_map_image_file ≠ "" ∧ fs.readImage t.ref_map_image_file = none then
    some (.inputFault ("Reference map image file does not exist or is not accessible"))
  else if t.ref_map_image_file ≠ "" ∧
      (fs.readImage t.ref_map_image_file).getD (0, 0) ≠ t.ref_map_size then
    some (.inputFault ("Reference map image file dimensions do not match map dimensions"))
  else if t.robot_map_image_file ≠ "" ∧ fs.readImage t.robot_map_image_file = none then
    some (.inputFault ("Robot map image file does not exist or is not accessible"))
  else if t.robot_map_image_file ≠ "" ∧
      (fs.readImage t.robot_map_image_file).getD (0, 0) ≠ t.robot_map_size then
    some (.inputFault ("Robot map image file dimensions do not match map dimensions"))
  else
    none

/-- `Transformer::calculate_correspondence_midpoints()`: entry `ii` is
`ref + (robot - ref) / 2`, component-wise. -/
def calculate_correspondence_midpoints (t : Transformer) : List Point2D :=
  (List.range t.ref_corr_points.length).map (fun ii =>
    let r := t.ref_corr_points.getD ii (0, 0)
    let q := t.robot_corr_points.getD ii (0, 0)
    (r.1 + (q.1 - r.1) / 2, r.2 + (q.2 - r.2) / 2))

end Transformer

/-- The loop body of `Transformer::subdivide_and_index_triangles` over the raw
triangle list: each vertex is resolved to the index of the first
component-wise-equal midpoint; a vertex matching no midpoint raises the
runtime error, keeping the triangles resolved so far. -/
def resolve_triangles (midpoints : List Point2D) :
    List RawTri → List Triangle × Option LoadErr
  | [] => ([], none)
  | tr :: rest =>
    match findIndexFrom tr.1 midpoints, findIndexFrom tr.2.1 midpoints,
        findIndexFrom tr.2.2 midpoints with
    | some i0, some i1, some i2 =>
      let r := resolve_triangles midpoints rest
      ((i0, i1, i2) :: r.1, r.2)
    | _, _, _ => ([], some (.inputFault ("Could not find expected triangle point")))

/-- Modelled from the spec: `cv::Subdiv2D::getTriangleList` is external
(OpenCV); per the specification, triangles whose vertices are the
subdivision's outer bounding points (virtual points, not real midpoints) are
discarded and do not appear in the returned list. -/
def getTriangleList (virtualPoints : List Point2D) (allTris : List RawTri) :
    List RawTri :=
  allTris.filter (fun tr =>
    !(virtualPoints.contains tr.1 || virtualPoints.contains tr.2.1 ||
      virtualPoints.contains tr.2.2))

namespace Transformer

/-- `Transformer::subdivide_and_index_triangles()`.  The planar subdivision
itself is external; `raw` is the triangle list it returns for this instance's
midpoints.  On a resolution failure the exception escapes with the triangles
resolved so far already pushed. -/
def subdivide_and_index_triangles (raw : List RawTri) (t : Transformer) :
    Transformer × Option LoadErr :=
  match resolve_triangles t.calculate_correspondence_midpoints raw with
  | (tris, e) => ({ t with triangles := t.triangles ++ tris }, e)

/-- `Transformer::precalculate_triangle_transforms()`: for each triangle, push
the robot-to-ref and ref-to-robot affine solves. -/
def precalculate_triangle_transforms (t : Transformer) : Transformer :=
  let toRefNew := t.triangles.map (fun tri =>
    let r := triangle_points tri t.ref_corr_points
    let q := triangle_points tri t.robot_corr_points
    getAffineTransform q.1 q.2.1 q.2.2 r.1 r.2.1 r.2.2)
  let toRobotNew := t.triangles.map (fun tri =>
    let r := triangle_points tri t.ref_corr_points
    let q := triangle_points tri t.robot_corr_points
    getAffineTransform r.1 r.2.1 r.2.2 q.1 q.2.1 q.2.2)
  { t with
    to_ref_transforms := t.to_ref_transforms ++ toRefNew
    to_robot_transforms := t.to_robot_transforms ++ toRobotNew }

/-- `Transformer::precalculate()`: subdivision and indexing, then (when that
does not throw) the per-triangle affine solves. -/
def precalculate (raw : List RawTri) (t : Transformer) :
    Transformer × Option LoadErr :=
  match t.subdivide_and_index_triangles raw with
  | (s, some e) => (s, some e)
  | (s, none) => (s.precalculate_triangle_transforms, none)

end Transformer

/-- The fields extracted from one of the two map sections of the YAML
document.  YAML parsing is external; the record holds the values the
`as<...>` conversions produce. -/
structure MapDoc where
  name : String
  image_file : Option String
  size : Rat × Rat
  corr_points : List Point2D
deriving DecidableEq, Repr

/-- The optional `transform` section of the robot map. -/
structure TransformDoc where
  scale : Rat × Rat
  rot : Rat
  translation : Rat × Rat
deriving DecidableEq, Repr

/-- A parsed input document. -/
structure YamlDoc where
  ref_map : MapDoc
  robot_map : MapDoc
  robot_transform : Option TransformDoc
deriving DecidableEq, Repr

namespace Transformer

/-- The local `Transformer loaded` after the field-extraction section of
`Transformer::load`: a freshly reset instance with the document's fields
copied in (the transform fields keep their reset defaults when the document
has no `transform` mapping). -/
def stateFromDoc (doc : YamlDoc) : Transformer :=
  { fresh with
    ref_map_name := doc.ref_map.name
    ref_map_image_file := doc.ref_map.image_file.getD ""
    ref_map_size := doc.ref_map.size
    robot_map_name := doc.robot_map.name
    robot_map_image_file := doc.robot_map.image_file.getD ""
    robot_map_size := doc.robot_map.size
    robot_map_scale := (doc.robot_transform.map TransformDoc.scale).getD (1, 1)
    robot_map_rotation := (doc.robot_transform.map TransformDoc.rot).getD 0
    robot_map_translation :=
      (doc.robot_transform.map TransformDoc.translation).getD (0, 0)
    ref_corr_points := doc.ref_map.corr_points
    robot_corr_points := doc.robot_map.corr_points }

/-- `Transformer::load`: reject a non-empty instance with a logic fault;
otherwise build the local `loaded` instance, validate it, assign it to
`*this`, and precalculate.  The returned state is the state of `*this` when
the call finishes, normally or by exception: the assignment `*this = loaded`
happens before `precalculate()`, so a precalculation failure leaves the
assigned state (with the triangles resolved so far) behind. -/
def load (fs : ImageFS) (raw : List RawTri) (t : Transformer) (doc : YamlDoc) :
    Transformer × Option LoadErr :=
  if ¬ t.emptyCheck then
    (t, some (.logicFault ("Transformer must be empty prior to calling load()")))
  else
    match (stateFromDoc doc).validate fs with
    | some e => (t, some e)
    | none => (stateFromDoc doc).precalculate raw

/-- The relation between the precomputed transform tables and the triangle
list that a successful `load` establishes: each table holds exactly the affine
solve of the corresponding triangle, in triangle-list order. -/
def fullyPrecalculated (t : Transformer) : Prop :=
  t.to_ref_transforms = t.triangles.map (fun tri =>
    let r := triangle_points tri t.ref_corr_points
    let q := triangle_points tri t.robot_corr_points
    getAffineTransform q.1 q.2.1 q.2.2 r.1 r.2.1 r.2.2) ∧
  t.to_robot_transforms = t.triangles.map (fun tri =>
    let r := triangle_points tri t.ref_corr_points
    let q := triangle_points tri t.robot_corr_points
    getAffineTransform r.1 r.2.1 r.2.2 q.1 q.2.1 q.2.2)

end Transformer

/-! ### Supporting lemmas -/

theorem findIndexFrom_sound (v : Point2D) (l : List Point2D) (i : Nat)
    (h : findIndexFrom v l = some i) : l[i]? = some v := by
  induction l generalizing i with
  | nil => simp [findIndexFrom] at h
  | cons a rest ih =>
    by_cases ha : a = v
    · simp [findIndexFrom, ha] at h
      subst h
      simp [ha]
    · simp only [findIndexFrom, if_neg ha, Option.map_eq_some'] at h
      obtain ⟨j, hj, hij⟩ := h
      subst hij
      simpa using ih j hj

theorem findIndexFrom_mem (v : Point2D) (l : List Point2D) (h : v ∈ l) :
    ∃ i, findIndexFrom v l = some i := by
  induction l with
  | nil => simp at h
  | cons a rest ih =>
    by_cases ha : a = v
    · exact ⟨0, by simp [findIndexFrom, ha]⟩
    · have hv : v ∈ rest := by
        rcases List.mem_cons.mp h with h1 | h1
        · exact absurd h1.symm ha
        · exact h1
      obtain ⟨j, hj⟩ := ih hv
      exact ⟨j + 1, by simp [findIndexFrom, ha, hj]⟩

/-- The total signed area of a triangle is the sum of the three signed
sub-areas cut off by any point: the identity behind the containment test. -/
theorem cross2_area_sum (a b c p : Point2D) :
    cross2 (b - a) (c - a) =
      cross2 (b - a) (p - a) + cross2 (c - b) (p - b) + cross2 (a - c) (p - c) := by
  obtain ⟨a1, a2⟩ := a
  obtain ⟨b1, b2⟩ := b
  obtain ⟨c1, c2⟩ := c
  obtain ⟨x, y⟩ := p
  simp only [cross2, Prod.mk_sub_mk]
  ring

/-- A triangle with a strict interior point is non-degenerate. -/
theorem strictly_inside_nondeg (a b c p : Point2D)
    (h : strictly_inside a b c p = true) : cross2 (b - a) (c - a) ≠ 0 := by
  rw [cross2_area_sum a b c p]
  simp [strictly_inside] at h
  rcases h with ⟨⟨h1, h2⟩, h3⟩ | ⟨⟨h1, h2⟩, h3⟩ <;> intro hc <;> linarith

/-- The affine solves in the two directions over a pair of non-degenerate
triangles are mutual inverses (exact arithmetic). -/
theorem affine_roundtrip (s0 s1 s2 d0 d1 d2 p : Point2D)
    (hs : cross2 (s1 - s0) (s2 - s0) ≠ 0)
    (hd : cross2 (d1 - d0) (d2 - d0) ≠ 0) :
    (getAffineTransform d0 d1 d2 s0 s1 s2).apply
      ((getAffineTransform s0 s1 s2 d0 d1 d2).apply p) = p := by
  obtain ⟨x, y⟩ := p
  obtain ⟨a1, a2⟩ := s0
  obtain ⟨b1, b2⟩ := s1
  obtain ⟨c1, c2⟩ := s2
  obtain ⟨g1, g2⟩ := d0
  obtain ⟨h1, h2⟩ := d1
  obtain ⟨k1, k2⟩ := d2
  simp only [getAffineTransform, Mat23.apply, cross2, Prod.mk_sub_mk,
    Prod.mk.injEq] at *
  constructor <;> field_simp <;> ring

theorem validate_none_facts (fs : ImageFS) (t : Transformer)
    (h : t.validate fs = none) :
    t.ref_corr_points ≠ [] ∧ t.robot_corr_points ≠ [] ∧
    t.ref_corr_points.length = t.robot_corr_points.length ∧
    ¬ (t.robot_map_translation.1 > t.ref_map_size.1 ∨
      t.robot_map_translation.2 > t.ref_map_size.2 ∨
      t.robot_map_translation.1 + t.robot_map_size.1 < 0 ∨
      t.robot_map_translation.2 + t.robot_map_size.2 < 0) ∧
    t.robot_map_scale.1 ≠ 0 ∧ t.robot_map_scale.2 ≠ 0 := by
  have h1 : t.ref_corr_points ≠ [] := by
    intro hx
    simp [Transformer.validate, hx] at h
  have h2 : t.robot_corr_points ≠ [] := by
    intro hx
    simp [Transformer.validate, h1, hx] at h
  have h3 : t.ref_corr_points.length = t.robot_corr_points.length := by
    by_contra hx
    simp [Transformer.validate, h1, h2, hx] at h
  have hov : ¬ (t.robot_map_translation.1 > t.ref_map_size.1 ∨
      t.robot_map_translation.2 > t.ref_map_size.2 ∨
      t.robot_map_translation.1 + t.robot_map_size.1 < 0 ∨
      t.robot_map_translation.2 + t.robot_map_size.2 < 0) := by
    intro hx
    simp [Transformer.validate, h1, h2, h3, hx] at h
  have hs : ¬ (t.robot_map_scale.1 = 0 ∨ t.robot_map_scale.2 = 0) := by
    intro hx
    simp [Transformer.validate, h1, h2, h3, hov, hx] at h
  push_neg at hs
  exact ⟨h1, h2, h3, hov, hs.1, hs.2⟩

theorem load_success_cases (fs : ImageFS) (raw : List RawTri) (doc : YamlDoc)
    (t2 : Transformer)
    (h : Transformer.load fs raw Transformer.fresh doc = (t2, none)) :
    (Transformer.stateFromDoc doc).validate fs = none ∧
    ∃ tris,
      resolve_triangles
          (Transformer.stateFromDoc doc).calculate_correspondence_midpoints raw =
        (tris, none) ∧
      t2 = Transformer.precalculate_triangle_transforms
        { Transformer.stateFromDoc doc with triangles := tris } := by
  have hfresh : Transformer.fresh.emptyCheck = true := rfl
  rw [Transformer.load] at h
  rw [if_neg (by simp [hfresh])] at h
  rcases hv : (Transformer.stateFromDoc doc).validate fs with _ | e
  · rw [hv] at h
    rw [Transformer.precalculate, Transformer.subdivide_and_index_triangles] at h
    rcases hr : resolve_triangles
        (Transformer.stateFromDoc doc).calculate_correspondence_midpoints raw with ⟨tris, err⟩
    rw [hr] at h
    rcases err with _ | e2
    · simp only [Prod.mk.injEq] at h
      refine ⟨rfl, tris, rfl, ?_⟩
      have hnil : (Transformer.stateFromDoc doc).triangles = [] := rfl
      rw [hnil, List.nil_append] at h
      exact h.1.symm
    · simp at h
  · rw [hv] at h
    simp at h

theorem load_success_precalculated (fs : ImageFS) (raw : List RawTri)
    (doc : YamlDoc) (t2 : Transformer)
    (h : Transformer.load fs raw Transformer.fresh doc = (t2, none)) :
    t2.fullyPrecalculated := by
  obtain ⟨-, tris, -, ht⟩ := load_success_cases fs raw doc t2 h
  subst ht
  simp only [Transformer.fullyPrecalculated, Transformer.precalculate_triangle_transforms]
  exact ⟨rfl, rfl⟩

theorem load_success_scale (fs : ImageFS) (raw : List RawTri)
    (doc : YamlDoc) (t2 : Transformer)
    (h : Transformer.load fs raw Transformer.fresh doc = (t2, none)) :
    t2.robot_map_scale.1 ≠ 0 ∧ t2.robot_map_scale.2 ≠ 0 := by
  obtain ⟨hv, tris, -, ht⟩ := load_success_cases fs raw doc t2 h
  have hsc : t2.robot_map_scale = (Transformer.stateFromDoc doc).robot_map_scale := by
    subst ht
    rfl
  have := validate_none_facts fs (Transformer.stateFromDoc doc) hv
  rw [hsc]
  exact ⟨this.2.2.2.2.1, this.2.2.2.2.2⟩

/-! ### Concrete example instances -/

/-- A filesystem oracle with no readable files.  The example documents below
declare no image files, so it is never consulted. -/
def noFS : ImageFS := { fileExists := fun _ => false, readImage := fun _ => none }

/-- Placeholder for the external cosine/sine; the example states below have
zero rotation, so the branch that would call these is never taken. -/
def zF : Rat → Rat := fun _ => 0

/-- A document whose two robot correspondence points coincide while the
reference correspondence points differ.  Such a document passes validation
(nothing rejects duplicate points) and loads successfully. -/
def c1doc : YamlDoc :=
  { ref_map := { name := "ref", image_file := none, size := (20, 20),
                 corr_points := [(10, 0), (0, 10)] }
    robot_map := { name := "rob", image_file := none, size := (20, 20),
                   corr_points := [(0, 0), (0, 0)] }
    robot_transform := none }

/-- The instance obtained by loading `c1doc` (two midpoints produce no
triangles, so the subdivision output is empty). -/
def c1state : Transformer := (Transformer.load noFS [] Transformer.fresh c1doc).1

/-! ### Claim C1 -/

unseal Rat.add Rat.sub Rat.mul Rat.inv in
/-- Claim C1, counterexample.  The instance loaded from `c1doc` is a loaded
instance with correspondence index 1 whose robot point is `Q[1] = (0, 0)` and
whose reference point is `R[1] = (0, 10)`; yet `to_ref(Q[1]) = (10, 0) ≠ R[1]`,
because the shortcut scan finds the equal point `Q[0]` first and returns
`R[0]`.  So the claimed exact round trip fails for every loaded instance with
a duplicated source point. -/
theorem c1_counterexample :
    (Transformer.load noFS [] Transformer.fresh c1doc).2 = none ∧
    c1state.robot_corr_points.getD 1 (0, 0) = ((0 : Rat), (0 : Rat)) ∧
    c1state.ref_corr_points.getD 1 (0, 0) = ((0 : Rat), (10 : Rat)) ∧
    Transformer.to_ref zF zF c1state (c1state.robot_corr_points.getD 1 (0, 0)) ≠
      c1state.ref_corr_points.getD 1 (0, 0) := by
  decide

/-- Claim C1 (amended): for every loaded instance and every correspondence
index `i` that is the first occurrence of its point in the respective source
array (in particular, whenever the source array is duplicate-free),
`to_ref(Q[i]) = R[i]` exactly and `to_robot(R[i]) = Q[i]` exactly, with no
floating-point tolerance, because both queries first scan the source array
for a component-wise equal point and return the same-indexed paired point. -/
theorem c1_amended (cF sF : Rat → Rat) (fs : ImageFS) (raw : List RawTri)
    (doc : YamlDoc) (t : Transformer) (i : Nat)
    (hload : Transformer.load fs raw Transformer.fresh doc = (t, none))
    (hfirstQ : findIndexFrom (t.robot_corr_points.getD i (0, 0))
      t.robot_corr_points = some i)
    (hfirstR : findIndexFrom (t.ref_corr_points.getD i (0, 0))
      t.ref_corr_points = some i) :
    Transformer.to_ref cF sF t (t.robot_corr_points.getD i (0, 0)) =
      t.ref_corr_points.getD i (0, 0) ∧
    Transformer.to_robot cF sF t (t.ref_corr_points.getD i (0, 0)) =
      t.robot_corr_points.getD i (0, 0) := by
  constructor
  · have hidx : get_correspondence_point_index
        (t.robot_corr_points.getD i (0, 0)) t.robot_corr_points = (i : Int) := by
      rw [get_correspondence_point_index, hfirstQ]
    simp only [Transformer.to_ref, hidx]
    rw [if_pos (Int.natCast_nonneg i), Int.toNat_natCast]
  · have hidx : get_correspondence_point_index
        (t.ref_corr_points.getD i (0, 0)) t.ref_corr_points = (i : Int) := by
      rw [get_correspondence_point_index, hfirstR]
    simp only [Transformer.to_robot, hidx]
    rw [if_pos (Int.natCast_nonneg i), Int.toNat_natCast]

unseal Rat.add Rat.sub Rat.mul Rat.inv in
/-- Witness for C1 (amended) at index 0 of the loaded `c1doc` instance. -/
theorem c1_amended_witness :
    Transformer.to_ref zF zF c1state (c1state.robot_corr_points.getD 0 (0, 0)) =
      c1state.ref_corr_points.getD 0 (0, 0) ∧
    Transformer.to_robot zF zF c1state (c1state.ref_corr_points.getD 0 (0, 0)) =
      c1state.robot_corr_points.getD 0 (0, 0) :=
  c1_amended zF zF noFS [] c1doc c1state 0 (by decide) (by decide) (by decide)

/-! ### Claim C2 -/

/-- A document building four correspondence pairs whose reference-frame
triangles overlap: pairs 0, 1, 3 are identical in both frames, pair 2 is
`(20, 20)` in the reference frame and `(-20, -20)` in the robot frame.  The
midpoints are `(0,4), (4,0), (0,0), (5,5)` and their Delaunay triangulation is
the two triangles on the diagonal 0-1. -/
def c2doc : YamlDoc :=
  { ref_map := { name := "ref", image_file := none, size := (30, 30),
                 corr_points := [(0, 4), (4, 0), (20, 20), (5, 5)] }
    robot_map := { name := "rob", image_file := none, size := (30, 30),
                   corr_points := [(0, 4), (4, 0), (-20, -20), (5, 5)] }
    robot_transform := none }

/-- The subdivision output for the midpoints of `c2doc`: the two Delaunay
triangles `((0,4),(4,0),(0,0))` and `((0,4),(4,0),(5,5))`. -/
def c2raw : List RawTri :=
  [(((0 : Rat), (4 : Rat)), ((4 : Rat), (0 : Rat)), ((0 : Rat), (0 : Rat))),
   (((0 : Rat), (4 : Rat)), ((4 : Rat), (0 : Rat)), ((5 : Rat), (5 : Rat)))]

/-- The instance obtained by loading `c2doc`. -/
def c2state : Transformer := (Transformer.load noFS c2raw Transformer.fresh c2doc).1

unseal Rat.add Rat.sub Rat.mul Rat.inv in
/-- Claim C2, counterexample.  In the instance loaded from `c2doc`, the point
`(3, 3)` lies strictly inside triangle 1 of the triangulation in the robot
frame; `to_ref` maps it (by that triangle's identity affine) to `(3, 3)`, but
the reference-frame triangle 0 overlaps triangle 1 and is scanned first, so
`to_robot` applies triangle 0's affine and returns `(7/9, 7/9) ≠ (3, 3)` —
exactly, in exact arithmetic, not within one unit in the last place. -/
theorem c2_counterexample :
    (Transformer.load noFS c2raw Transformer.fresh c2doc).2 = none ∧
    c2state.triangles.getD 1 (0, 0, 0) = (0, 1, 3) ∧
    strictly_inside (triangle_points (c2state.triangles.getD 1 (0, 0, 0))
        c2state.robot_corr_points).1
      (triangle_points (c2state.triangles.getD 1 (0, 0, 0))
        c2state.robot_corr_points).2.1
      (triangle_points (c2state.triangles.getD 1 (0, 0, 0))
        c2state.robot_corr_points).2.2
      ((3 : Rat), (3 : Rat)) = true ∧
    Transformer.to_robot zF zF c2state
        (Transformer.to_ref zF zF c2state ((3 : Rat), (3 : Rat))) ≠
      ((3 : Rat), (3 : Rat)) := by
  decide

/-- Claim C2 (amended): for every loaded instance and every point `p` strictly
inside a triangle of the triangulation in the robot frame, if the triangle the
robot-frame search selects for `p` is also the one the reference-frame search
selects for the image point (as is automatic when the reference-frame
triangles do not overlap), neither point takes the correspondence shortcut,
and the reference-frame triangle is non-degenerate, then
`to_robot(to_ref(p)) = p` exactly: the two per-triangle affine maps used by
the queries are mutual inverses on triangle interiors. -/
theorem c2_amended (cF sF : Rat → Rat) (fs : ImageFS) (raw : List RawTri)
    (doc : YamlDoc) (t : Transformer) (p : Point2D) (i : Nat) (tri : Triangle)
    (hload : Transformer.load fs raw Transformer.fresh doc = (t, none))
    (htri : t.triangles[i]? = some tri)
    (hstrict : strictly_inside (triangle_points tri t.robot_corr_points).1
      (triangle_points tri t.robot_corr_points).2.1
      (triangle_points tri t.robot_corr_points).2.2 p = true)
    (hrefdet : cross2
      ((triangle_points tri t.ref_corr_points).2.1 -
        (triangle_points tri t.ref_corr_points).1)
      ((triangle_points tri t.ref_corr_points).2.2 -
        (triangle_points tri t.ref_corr_points).1) ≠ 0)
    (hshortQ : findIndexFrom p t.robot_corr_points = none)
    (hfindQ : t.find_containing_triangle_in_robot p = (i : Int))
    (hshortR : findIndexFrom (Transformer.to_ref cF sF t p)
      t.ref_corr_points = none)
    (hfindR : t.find_containing_triangle_in_ref (Transformer.to_ref cF sF t p) =
      (i : Int)) :
    Transformer.to_robot cF sF t (Transformer.to_ref cF sF t p) = p := by
  obtain ⟨hpre1, hpre2⟩ := load_success_precalculated fs raw doc t hload
  have hnotneg : ¬ ((i : Int) < 0) := Int.not_lt.mpr (Int.natCast_nonneg i)
  have hmatQ : t.to_ref_transforms.getD i Mat23.zero =
      getAffineTransform (triangle_points tri t.robot_corr_points).1
        (triangle_points tri t.robot_corr_points).2.1
        (triangle_points tri t.robot_corr_points).2.2
        (triangle_points tri t.ref_corr_points).1
        (triangle_points tri t.ref_corr_points).2.1
        (triangle_points tri t.ref_corr_points).2.2 := by
    rw [hpre1, List.getD_eq_getElem?_getD, List.getElem?_map, htri]
    rfl
  have hmatR : t.to_robot_transforms.getD i Mat23.zero =
      getAffineTransform (triangle_points tri t.ref_corr_points).1
        (triangle_points tri t.ref_corr_points).2.1
        (triangle_points tri t.ref_corr_points).2.2
        (triangle_points tri t.robot_corr_points).1
        (triangle_points tri t.robot_corr_points).2.1
        (triangle_points tri t.robot_corr_points).2.2 := by
    rw [hpre2, List.getD_eq_getElem?_getD, List.getElem?_map, htri]
    rfl
  have hidxQ : get_correspondence_point_index p t.robot_corr_points = -1 := by
    rw [get_correspondence_point_index, hshortQ]
  have hidxR : get_correspondence_point_index (Transformer.to_ref cF sF t p)
      t.ref_corr_points = -1 := by
    rw [get_correspondence_point_index, hshortR]
  have href : Transformer.to_ref cF sF t p =
      (getAffineTransform (triangle_points tri t.robot_corr_points).1
        (triangle_points tri t.robot_corr_points).2.1
        (triangle_points tri t.robot_corr_points).2.2
        (triangle_points tri t.ref_corr_points).1
        (triangle_points tri t.ref_corr_points).2.1
        (triangle_points tri t.ref_corr_points).2.2).apply p := by
    simp only [Transformer.to_ref, hidxQ, hfindQ]
    rw [if_neg (by decide), if_neg hnotneg, Int.toNat_natCast, hmatQ]
  simp only [Transformer.to_robot, hidxR, hfindR]
  rw [if_neg (by decide), if_neg hnotneg, Int.toNat_natCast, hmatR, href]
  exact affine_roundtrip _ _ _ _ _ _ p
    (strictly_inside_nondeg _ _ _ _ hstrict) hrefdet

unseal Rat.add Rat.sub Rat.mul Rat.inv in
/-- Witness for C2 (amended): in the `c2doc` instance, `(1, 1)` lies strictly
inside robot-frame triangle 0, both searches select triangle 0 for it and for
its image, and the round trip is exact. -/
theorem c2_amended_witness :
    Transformer.to_robot zF zF c2state
        (Transformer.to_ref zF zF c2state ((1 : Rat), (1 : Rat))) =
      ((1 : Rat), (1 : Rat)) :=
  c2_amended zF zF noFS c2raw c2doc c2state ((1 : Rat), (1 : Rat)) 0 (0, 1, 2)
    (by decide) (by decide) (by decide) (by decide) (by decide) (by decide)
    (by decide) (by decide)

/-! ### Claim C3 -/

/-- The convex-hull fallback of `to_robot` exactly as the specification
writes it: `diag(1/sx, 1/sy) · R(-θ) · p - t` — the rotation applied first,
the scale division second, the translation subtracted last. -/
def spec_fallback_to_robot (cF sF : Rat → Rat) (t : Transformer)
    (p : Point2D) : Point2D :=
  let rotated : Point2D :=
    (cF (-t.robot_map_rotation) * p.1 - sF (-t.robot_map_rotation) * p.2,
     sF (-t.robot_map_rotation) * p.1 + cF (-t.robot_map_rotation) * p.2)
  let scaled : Point2D :=
    (rotated.1 / t.robot_map_scale.1, rotated.2 / t.robot_map_scale.2)
  (scaled.1 - t.robot_map_translation.1, scaled.2 - t.robot_map_translation.2)

/-- Stand-in for the external cosine at the angles used by `c3state`:
`cos(∓θ₀) = 3/5` for the angle `θ₀` with `cos θ₀ = 3/5`, `sin θ₀ = 4/5`. -/
def exCos : Rat → Rat := fun _ => 3 / 5

/-- Stand-in for the external sine at the angles used by `c3state` (odd:
`sin(-θ₀) = -4/5`, `sin θ₀ = 4/5`). -/
def exSin : Rat → Rat := fun x => if x < 0 then -4 / 5 else 4 / 5

/-- A document with a non-zero rotation and unequal axis scales `(1, 2)`
(the regime in which the order of rotation and scaling matters). -/
def c3doc : YamlDoc :=
  { ref_map := { name := "ref", image_file := none, size := (10, 10),
                 corr_points := [(5, 5)] }
    robot_map := { name := "rob", image_file := none, size := (10, 10),
                   corr_points := [(6, 6)] }
    robot_transform := some { scale := (1, 2), rot := 1, translation := (0, 0) } }

/-- The instance obtained by loading `c3doc` (one midpoint, no triangles). -/
def c3state : Transformer := (Transformer.load noFS [] Transformer.fresh c3doc).1

unseal Rat.add Rat.sub Rat.mul Rat.inv in
/-- Claim C3, counterexample.  In the instance loaded from `c3doc`, the point
`(1, 1)` matches no correspondence point and no triangle, yet
`to_robot((1,1)) = (1, -1/2)` while the formula the claim states,
`diag(1/sx, 1/sy) · R(-θ) · p - t`, gives `(7/5, -1/10)`: the code divides by
the scale before rotating, computing `R(-θ) · diag(1/sx, 1/sy) · p - t`
instead. -/
theorem c3_counterexample :
    (Transformer.load noFS [] Transformer.fresh c3doc).2 = none ∧
    get_correspondence_point_index ((1 : Rat), (1 : Rat))
      c3state.ref_corr_points = -1 ∧
    c3state.find_containing_triangle_in_ref ((1 : Rat), (1 : Rat)) = -1 ∧
    Transformer.to_robot exCos exSin c3state ((1 : Rat), (1 : Rat)) ≠
      spec_fallback_to_robot exCos exSin c3state ((1 : Rat), (1 : Rat)) := by
  decide

/-- Claim C3 (amended): for every instance and every query point `p` contained
in no triangle and equal to no correspondence point, `to_ref(p)` returns the
global affine `R(θ) · diag(sx, sy) · p + t` exactly as that formula is
written, and `to_robot(p)` returns `R(-θ) · diag(1/sx, 1/sy) · p - t` — the
scale division is applied before the rotation in the inverse path (and the
subtraction after both), not after it as the specification's formula has it.
`cF`/`sF` stand for the external cosine/sine, so the identities
`cos 0 = 1`, `sin 0 = 0` are hypotheses. -/
theorem c3_amended (cF sF : Rat → Rat) (t : Transformer) (p : Point2D)
    (hcos : cF 0 = 1) (hsin : sF 0 = 0)
    (hshortQ : get_correspondence_point_index p t.robot_corr_points = -1)
    (hnoQ : t.find_containing_triangle_in_robot p = -1)
    (hshortR : get_correspondence_point_index p t.ref_corr_points = -1)
    (hnoR : t.find_containing_triangle_in_ref p = -1) :
    Transformer.to_ref cF sF t p =
      (cF t.robot_map_rotation * (p.1 * t.robot_map_scale.1) -
         sF t.robot_map_rotation * (p.2 * t.robot_map_scale.2) +
         t.robot_map_translation.1,
       sF t.robot_map_rotation * (p.1 * t.robot_map_scale.1) +
         cF t.robot_map_rotation * (p.2 * t.robot_map_scale.2) +
         t.robot_map_translation.2) ∧
    Transformer.to_robot cF sF t p =
      (cF (-t.robot_map_rotation) * (p.1 / t.robot_map_scale.1) -
         sF (-t.robot_map_rotation) * (p.2 / t.robot_map_scale.2) -
         t.robot_map_translation.1,
       sF (-t.robot_map_rotation) * (p.1 / t.robot_map_scale.1) +
         cF (-t.robot_map_rotation) * (p.2 / t.robot_map_scale.2) -
         t.robot_map_translation.2) := by
  constructor
  · have h1 : Transformer.to_ref cF sF t p =
        t.transform_to_ref_by_map_transform cF sF p := by
      simp only [Transformer.to_ref, hshortQ, hnoQ]
      rw [if_neg (by decide), if_pos (by decide)]
    rw [h1, Transformer.transform_to_ref_by_map_transform]
    by_cases hr : t.robot_map_rotation = 0
    · simp only [hr, ne_eq, not_true_eq_false, if_false, hcos, hsin]
      simp [Prod.ext_iff]
    · rw [if_pos hr]
  · have h1 : Transformer.to_robot cF sF t p =
        t.transform_from_ref_by_map_transform cF sF p := by
      simp only [Transformer.to_robot, hshortR, hnoR]
      rw [if_neg (by decide), if_pos (by decide)]
    rw [h1, Transformer.transform_from_ref_by_map_transform]
    by_cases hr : t.robot_map_rotation = 0
    · simp only [hr, ne_eq, not_true_eq_false, if_false, neg_zero, hcos, hsin]
      simp [Prod.ext_iff]
    · rw [if_pos hr]

unseal Rat.add Rat.sub Rat.mul Rat.inv in
/-- Witness for C3 (amended) at the `c1doc` instance (zero rotation) with
cosine/sine stand-ins satisfying `cos 0 = 1`, `sin 0 = 0`. -/
theorem c3_amended_witness :
    Transformer.to_ref (fun _ => 1) (fun _ => 0) c1state ((7 : Rat), (9 : Rat)) =
      ((1 : Rat) * ((7 : Rat) * c1state.robot_map_scale.1) -
         (0 : Rat) * ((9 : Rat) * c1state.robot_map_scale.2) +
         c1state.robot_map_translation.1,
       (0 : Rat) * ((7 : Rat) * c1state.robot_map_scale.1) +
         (1 : Rat) * ((9 : Rat) * c1state.robot_map_scale.2) +
         c1state.robot_map_translation.2) ∧
    Transformer.to_robot (fun _ => 1) (fun _ => 0) c1state ((7 : Rat), (9 : Rat)) =
      ((1 : Rat) * ((7 : Rat) / c1state.robot_map_scale.1) -
         (0 : Rat) * ((9 : Rat) / c1state.robot_map_scale.2) -
         c1state.robot_map_translation.1,
       (0 : Rat) * ((7 : Rat) / c1state.robot_map_scale.1) +
         (1 : Rat) * ((9 : Rat) / c1state.robot_map_scale.2) -
         c1state.robot_map_translation.2) := by
  have h := c3_amended (fun _ => 1) (fun _ => 0) c1state ((7 : Rat), (9 : Rat))
    rfl rfl (by decide) (by decide) (by decide) (by decide)
  have hrot : c1state.robot_map_rotation = 0 := by decide
  simpa [hrot] using h

/-! ### Claim C4 -/

/-- A valid document with three identical correspondence pairs in both
frames (midpoints `(0,0), (4,0), (0,4)`). -/
def c4doc : YamlDoc :=
  { ref_map := { name := "ref", image_file := none, size := (10, 10),
                 corr_points := [(0, 0), (4, 0), (0, 4)] }
    robot_map := { name := "rob", image_file := none, size := (10, 10),
                   corr_points := [(0, 0), (4, 0), (0, 4)] }
    robot_transform := none }

/-- A subdivision output whose second triangle carries the vertex `(9, 9)`
matching no midpoint, so vertex resolution fails after one triangle has been
indexed. -/
def c4raw : List RawTri :=
  [(((0 : Rat), (0 : Rat)), ((4 : Rat), (0 : Rat)), ((0 : Rat), (4 : Rat))),
   (((9 : Rat), (9 : Rat)), ((4 : Rat), (0 : Rat)), ((0 : Rat), (4 : Rat)))]

/-- A subdivision output for `c4doc` on which resolution succeeds. -/
def c4okraw : List RawTri :=
  [(((0 : Rat), (0 : Rat)), ((4 : Rat), (0 : Rat)), ((0 : Rat), (4 : Rat)))]

/-- An `emptyCheck = false` helper: any state whose reference correspondence
list is non-empty fails the `_empty()` test. -/
theorem emptyCheck_false_of_corr (t : Transformer) (h : t.ref_corr_points ≠ []) :
    t.emptyCheck = false := by
  simp [Transformer.emptyCheck, h]

unseal Rat.add Rat.sub Rat.mul Rat.inv in
/-- Claim C4, counterexample.  Loading `c4doc` from the empty instance with
subdivision output `c4raw` fails while resolving triangle vertices after
validation, yet the instance does not remain empty and unchanged: `*this` was
overwritten before `precalculate()`, so the failed load leaves a non-empty
state carrying one resolved triangle and no transform tables. -/
theorem c4_counterexample :
    (Transformer.load noFS c4raw Transformer.fresh c4doc).2 =
      some (.inputFault ("Could not find expected triangle point")) ∧
    (Transformer.load noFS c4raw Transformer.fresh c4doc).1 ≠ Transformer.fresh ∧
    (Transformer.load noFS c4raw Transformer.fresh c4doc).1.emptyCheck = false ∧
    (Transformer.load noFS c4raw Transformer.fresh c4doc).1.triangles =
      [(0, 1, 2)] ∧
    (Transformer.load noFS c4raw Transformer.fresh c4doc).1.to_ref_transforms =
      [] := by
  decide

/-- Claim C4 (amended): on an empty instance, a validation failure aborts
`load` with the instance unchanged; when validation passes, a successful
`load` yields a fully loaded instance (both per-triangle affine tables fully
precomputed, one entry per triangle); but a failure while resolving triangle
vertices happens after `*this` has been overwritten, leaving the instance
non-empty with empty transform tables rather than empty and unchanged. -/
theorem c4_amended (fs : ImageFS) (raw : List RawTri) (doc : YamlDoc)
    (t : Transformer) (hEmpty : t.emptyCheck = true) :
    (∀ e, (Transformer.stateFromDoc doc).validate fs = some e →
      t.load fs raw doc = (t, some e)) ∧
    ((Transformer.stateFromDoc doc).validate fs = none →
      (((t.load fs raw doc).2 = none →
          (t.load fs raw doc).1.fullyPrecalculated ∧
          (t.load fs raw doc).1.emptyCheck = false) ∧
       ((t.load fs raw doc).2 ≠ none →
          (t.load fs raw doc).1.emptyCheck = false ∧
          (t.load fs raw doc).1.to_ref_transforms = [] ∧
          (t.load fs raw doc).1.to_robot_transforms = []))) := by
  rw [Transformer.load, if_neg (by simp [hEmpty])]
  constructor
  · intro e he
    rw [he]
  · intro hv
    rw [hv]
    have hne := (validate_none_facts fs _ hv).1
    rw [Transformer.precalculate, Transformer.subdivide_and_index_triangles]
    rcases hr : resolve_triangles
        (Transformer.stateFromDoc doc).calculate_correspondence_midpoints raw
      with ⟨tris, err⟩
    rcases err with _ | e2
    · refine ⟨fun _ => ⟨⟨rfl, rfl⟩, ?_⟩, fun hc => absurd rfl hc⟩
      exact emptyCheck_false_of_corr _ hne
    · refine ⟨fun hc => by simp at hc, fun _ => ⟨?_, rfl, rfl⟩⟩
      exact emptyCheck_false_of_corr _ hne

unseal Rat.add Rat.sub Rat.mul Rat.inv in
/-- Witness for C4 (amended): loading `c4doc` with the good subdivision
output succeeds and leaves a fully loaded, non-empty instance. -/
theorem c4_amended_witness :
    (Transformer.load noFS c4okraw Transformer.fresh c4doc).1.fullyPrecalculated ∧
    (Transformer.load noFS c4okraw Transformer.fresh c4doc).1.emptyCheck = false :=
  ((c4_amended noFS c4okraw c4doc Transformer.fresh (by decide)).2 (by decide)).1
    (by decide)

/-! ### Claim C5 -/

/-- A valid three-pair document for exercising `reset` after a full load. -/
def c5doc : YamlDoc :=
  { ref_map := { name := "ref", image_file := none, size := (10, 10),
                 corr_points := [(0, 0), (4, 0), (0, 4)] }
    robot_map := { name := "rob", image_file := none, size := (10, 10),
                   corr_points := [(0, 0), (4, 0), (0, 4)] }
    robot_transform := none }

/-- Subdivision output for `c5doc`: its single midpoint triangle. -/
def c5raw : List RawTri :=
  [(((0 : Rat), (0 : Rat)), ((4 : Rat), (0 : Rat)), ((0 : Rat), (4 : Rat)))]

/-- The instance obtained by loading `c5doc`: one triangle, one transform in
each table. -/
def c5state : Transformer := (Transformer.load noFS c5raw Transformer.fresh c5doc).1

unseal Rat.add Rat.sub Rat.mul Rat.inv in
/-- Claim C5, counterexample.  `c5state` is a loaded instance, and
`reset` does not produce the state of a freshly constructed instance:
`reset` never touches `_to_ref_transforms` / `_to_robot_transforms`, so the
per-triangle affine tables survive. -/
theorem c5_counterexample :
    (Transformer.load noFS c5raw Transformer.fresh c5doc).2 = none ∧
    c5state.reset ≠ Transformer.fresh ∧
    c5state.reset.to_ref_transforms ≠ [] := by
  decide

/-- Claim C5 (amended): `reset` restores every field except the two
per-triangle affine-transform tables, which keep their previous contents; the
result still passes the `_empty()` test, and a subsequent `load` of a
document that passes validation behaves identically to a load on a freshly
constructed instance, because `load` overwrites the whole object before
precalculating. -/
theorem c5_amended (t : Transformer) :
    t.reset = { Transformer.fresh with
      to_ref_transforms := t.to_ref_transforms
      to_robot_transforms := t.to_robot_transforms } ∧
    t.reset.emptyCheck = true ∧
    (∀ fs raw doc, (Transformer.stateFromDoc doc).validate fs = none →
      t.reset.load fs raw doc = Transformer.fresh.load fs raw doc) := by
  refine ⟨rfl, rfl, ?_⟩
  intro fs raw doc hv
  rw [Transformer.load, Transformer.load]
  rw [if_neg (by simp [show t.reset.emptyCheck = true from rfl]),
    if_neg (by simp [show Transformer.fresh.emptyCheck = true from rfl])]
  rw [hv]

unseal Rat.add Rat.sub Rat.mul Rat.inv in
/-- Witness for C5 (amended) at the loaded `c5doc` instance. -/
theorem c5_amended_witness :
    c5state.reset.load noFS c5raw c5doc = Transformer.fresh.load noFS c5raw c5doc :=
  (c5_amended c5state).2.2 noFS c5raw c5doc (by decide)

/-! ### Claim C6 -/

/-- Claim C6: `load` on a non-empty instance fails with the logic fault and
returns the instance's entire state unchanged (the check precedes every
mutation of `*this`). -/
theorem c6_load_on_loaded (fs : ImageFS) (raw : List RawTri) (doc : YamlDoc)
    (t : Transformer) (h : t.emptyCheck = false) :
    t.load fs raw doc =
      (t, some (.logicFault ("Transformer must be empty prior to calling load()"))) := by
  rw [Transformer.load, if_pos (by simp [h])]

/-- A valid document for building the loaded instance of the C6 witness. -/
def c6doc : YamlDoc :=
  { ref_map := { name := "ref", image_file := none, size := (10, 10),
                 corr_points := [(0, 0), (4, 0), (0, 4)] }
    robot_map := { name := "rob", image_file := none, size := (10, 10),
                   corr_points := [(0, 0), (4, 0), (0, 4)] }
    robot_transform := none }

/-- Subdivision output for `c6doc`. -/
def c6raw : List RawTri :=
  [(((0 : Rat), (0 : Rat)), ((4 : Rat), (0 : Rat)), ((0 : Rat), (4 : Rat)))]

/-- The loaded (non-empty) instance for the C6 witness. -/
def c6state : Transformer := (Transformer.load noFS c6raw Transformer.fresh c6doc).1

unseal Rat.add Rat.sub Rat.mul Rat.inv in
/-- Witness for C6 at a loaded instance. -/
theorem c6_load_on_loaded_witness :
    c6state.load noFS c6raw c6doc =
      (c6state, some (.logicFault ("Transformer must be empty prior to calling load()"))) :=
  c6_load_on_loaded noFS c6raw c6doc c6state (by decide)

/-! ### Claim C7 -/

unseal Rat.add Rat.sub Rat.mul Rat.inv in
/-- Claim C7 is a code bug; this theorem evaluates the code on the empty
instance.  Every getter returns the default field value and both queries
return the query point (transformed by the identity global affine) — no
logic fault is signalled anywhere, although the header documentation and the
test suite (`load_no_data_is_logic_error`, `load_reset`) demand
`std::logic_error`. -/
theorem c7_code_bug_evidence :
    Transformer.fresh.emptyCheck = true ∧
    Transformer.fresh.ref_map_name = "" ∧
    Transformer.fresh.robot_map_name = "" ∧
    Transformer.fresh.ref_map_size = ((0 : Rat), (0 : Rat)) ∧
    Transformer.fresh.robot_map_scale = ((1 : Rat), (1 : Rat)) ∧
    Transformer.fresh.ref_corr_points = [] ∧
    Transformer.fresh.triangles = [] ∧
    Transformer.fresh.bounding_box =
      (((0 : Rat), (0 : Rat)), ((0 : Rat), (0 : Rat))) ∧
    (∀ cF sF p, Transformer.to_ref cF sF Transformer.fresh p = p) ∧
    (∀ cF sF p, Transformer.to_robot cF sF Transformer.fresh p = p) := by
  refine ⟨rfl, rfl, rfl, rfl, rfl, rfl, rfl, by decide, ?_, ?_⟩ <;>
    intro cF sF p <;>
    simp [Transformer.to_ref, Transformer.to_robot, Transformer.fresh,
      get_correspondence_point_index, findIndexFrom,
      Transformer.find_containing_triangle_in_robot,
      Transformer.find_containing_triangle_in_ref, firstIdxWhere,
      Transformer.transform_to_ref_by_map_transform,
      Transformer.transform_from_ref_by_map_transform]

/-! ### Claim C8 -/

/-- The indexing loop of `subdivide_and_index_triangles` over a raw triangle
list all of whose vertices are midpoints: no resolution failure, one index
triple per raw triangle, each vertex resolved to the first component-wise
equal midpoint, all indices in range and (for triangles with pairwise
distinct vertices) pairwise distinct. -/
theorem resolve_triangles_spec (midpoints : List Point2D) (raw : List RawTri)
    (hvert : ∀ tr ∈ raw, tr.1 ∈ midpoints ∧ tr.2.1 ∈ midpoints ∧ tr.2.2 ∈ midpoints)
    (hnd : ∀ tr ∈ raw, tr.1 ≠ tr.2.1 ∧ tr.1 ≠ tr.2.2 ∧ tr.2.1 ≠ tr.2.2) :
    (resolve_triangles midpoints raw).2 = none ∧
    (resolve_triangles midpoints raw).1.length = raw.length ∧
    (∀ (k : Nat) (tri : Triangle),
      (resolve_triangles midpoints raw).1[k]? = some tri →
      ∃ tr : RawTri, raw[k]? = some tr ∧
        tri.1 < midpoints.length ∧ tri.2.1 < midpoints.length ∧
        tri.2.2 < midpoints.length ∧
        midpoints[tri.1]? = some tr.1 ∧ midpoints[tri.2.1]? = some tr.2.1 ∧
        midpoints[tri.2.2]? = some tr.2.2 ∧
        tri.1 ≠ tri.2.1 ∧ tri.1 ≠ tri.2.2 ∧ tri.2.1 ≠ tri.2.2) := by
  induction raw with
  | nil =>
    refine ⟨rfl, rfl, ?_⟩
    intro k tri h
    simp [resolve_triangles] at h
  | cons tr rest ih =>
    have hv := hvert tr (List.mem_cons_self tr rest)
    have hn := hnd tr (List.mem_cons_self tr rest)
    obtain ⟨i0, h0⟩ := findIndexFrom_mem tr.1 midpoints hv.1
    obtain ⟨i1, h1⟩ := findIndexFrom_mem tr.2.1 midpoints hv.2.1
    obtain ⟨i2, h2⟩ := findIndexFrom_mem tr.2.2 midpoints hv.2.2
    have hs0 := findIndexFrom_sound tr.1 midpoints i0 h0
    have hs1 := findIndexFrom_sound tr.2.1 midpoints i1 h1
    have hs2 := findIndexFrom_sound tr.2.2 midpoints i2 h2
    have hres : resolve_triangles midpoints (tr :: rest) =
        ((i0, i1, i2) :: (resolve_triangles midpoints rest).1,
         (resolve_triangles midpoints rest).2) := by
      simp only [resolve_triangles, h0, h1, h2]
    obtain ⟨ihe, ihl, ihk⟩ := ih
      (fun u hu => hvert u (List.mem_cons_of_mem tr hu))
      (fun u hu => hnd u (List.mem_cons_of_mem tr hu))
    rw [hres]
    refine ⟨ihe, by simpa using ihl, ?_⟩
    intro k tri h
    cases k with
    | zero =>
      simp only [List.getElem?_cons_zero, Option.some.injEq] at h
      subst h
      refine ⟨tr, by simp, (List.getElem?_eq_some.mp hs0).1,
        (List.getElem?_eq_some.mp hs1).1, (List.getElem?_eq_some.mp hs2).1,
        hs0, hs1, hs2, ?_, ?_, ?_⟩
      · intro he
        have he2 : i0 = i1 := he
        rw [he2, hs1] at hs0
        exact hn.1 (Option.some.inj hs0).symm
      · intro he
        have he2 : i0 = i2 := he
        rw [he2, hs2] at hs0
        exact hn.2.1 (Option.some.inj hs0).symm
      · intro he
        have he2 : i1 = i2 := he
        rw [he2, hs2] at hs1
        exact hn.2.2 (Option.some.inj hs1).symm
    | succ k =>
      simp only [List.getElem?_cons_succ] at h
      obtain ⟨tr2, htr2, hrest⟩ := ihk k tri h
      exact ⟨tr2, by simpa using htr2, hrest⟩

/-- Claim C8: over any subdivision whose triangle vertices are either
inserted midpoints or the outer bounding (virtual) points, `getTriangleList`
(modelled from the spec) discards every triangle touching a virtual point, and
the triangulator then resolves each remaining vertex to a midpoint index by
exact coordinate equality without failing the load; provided the subdivision's
triangles have pairwise distinct vertices, every emitted index triple has
three distinct indices, all in range of the midpoint array. -/
theorem c8_subdivision_indexing (midpoints virtualPts : List Point2D)
    (allTris : List RawTri)
    (hvert : ∀ tr ∈ allTris, (tr.1 ∈ virtualPts ∨ tr.1 ∈ midpoints) ∧
      (tr.2.1 ∈ virtualPts ∨ tr.2.1 ∈ midpoints) ∧
      (tr.2.2 ∈ virtualPts ∨ tr.2.2 ∈ midpoints))
    (hnd : ∀ tr ∈ allTris, tr.1 ≠ tr.2.1 ∧ tr.1 ≠ tr.2.2 ∧ tr.2.1 ≠ tr.2.2) :
    (resolve_triangles midpoints (getTriangleList virtualPts allTris)).2 = none ∧
    (resolve_triangles midpoints (getTriangleList virtualPts allTris)).1.length =
      (getTriangleList virtualPts allTris).length ∧
    (∀ (k : Nat) (tri : Triangle),
      (resolve_triangles midpoints (getTriangleList virtualPts allTris)).1[k]? =
        some tri →
      ∃ tr : RawTri, (getTriangleList virtualPts allTris)[k]? = some tr ∧
        tri.1 < midpoints.length ∧ tri.2.1 < midpoints.length ∧
        tri.2.2 < midpoints.length ∧
        midpoints[tri.1]? = some tr.1 ∧ midpoints[tri.2.1]? = some tr.2.1 ∧
        midpoints[tri.2.2]? = some tr.2.2 ∧
        tri.1 ≠ tri.2.1 ∧ tri.1 ≠ tri.2.2 ∧ tri.2.1 ≠ tri.2.2) := by
  apply resolve_triangles_spec
  · intro tr htr
    have hmem := List.mem_filter.mp htr
    have hin := hvert tr hmem.1
    have hp := hmem.2
    simp at hp
    refine ⟨?_, ?_, ?_⟩
    · rcases hin.1 with hu | hu
      · exact absurd hu hp.1.1
      · exact hu
    · rcases hin.2.1 with hu | hu
      · exact absurd hu hp.1.2
      · exact hu
    · rcases hin.2.2 with hu | hu
      · exact absurd hu hp.2
      · exact hu
  · intro tr htr
    exact hnd tr (List.mem_filter.mp htr).1

unseal Rat.add Rat.sub Rat.mul Rat.inv in
/-- Witness for C8: midpoints of `c4doc` with one virtual corner point; the
subdivision output holds one real triangle and one triangle touching the
virtual point, which is discarded; resolution succeeds with the triple
`(0, 1, 2)`. -/
theorem c8_subdivision_indexing_witness :
    (resolve_triangles
        [((0 : Rat), (0 : Rat)), ((4 : Rat), (0 : Rat)), ((0 : Rat), (4 : Rat))]
        (getTriangleList [((100 : Rat), (100 : Rat))]
          [(((0 : Rat), (0 : Rat)), ((4 : Rat), (0 : Rat)), ((0 : Rat), (4 : Rat))),
           (((100 : Rat), (100 : Rat)), ((4 : Rat), (0 : Rat)),
            ((0 : Rat), (4 : Rat)))])).2 = none ∧
    (resolve_triangles
        [((0 : Rat), (0 : Rat)), ((4 : Rat), (0 : Rat)), ((0 : Rat), (4 : Rat))]
        (getTriangleList [((100 : Rat), (100 : Rat))]
          [(((0 : Rat), (0 : Rat)), ((4 : Rat), (0 : Rat)), ((0 : Rat), (4 : Rat))),
           (((100 : Rat), (100 : Rat)), ((4 : Rat), (0 : Rat)),
            ((0 : Rat), (4 : Rat)))])).1.length =
      (getTriangleList [((100 : Rat), (100 : Rat))]
          [(((0 : Rat), (0 : Rat)), ((4 : Rat), (0 : Rat)), ((0 : Rat), (4 : Rat))),
           (((100 : Rat), (100 : Rat)), ((4 : Rat), (0 : Rat)),
            ((0 : Rat), (4 : Rat)))]).length ∧
    (∀ (k : Nat) (tri : Triangle),
      (resolve_triangles
          [((0 : Rat), (0 : Rat)), ((4 : Rat), (0 : Rat)), ((0 : Rat), (4 : Rat))]
          (getTriangleList [((100 : Rat), (100 : Rat))]
            [(((0 : Rat), (0 : Rat)), ((4 : Rat), (0 : Rat)), ((0 : Rat), (4 : Rat))),
             (((100 : Rat), (100 : Rat)), ((4 : Rat), (0 : Rat)),
              ((0 : Rat), (4 : Rat)))])).1[k]? = some tri →
      ∃ tr : RawTri,
        (getTriangleList [((100 : Rat), (100 : Rat))]
          [(((0 : Rat), (0 : Rat)), ((4 : Rat), (0 : Rat)), ((0 : Rat), (4 : Rat))),
           (((100 : Rat), (100 : Rat)), ((4 : Rat), (0 : Rat)),
            ((0 : Rat), (4 : Rat)))])[k]? = some tr ∧
        tri.1 < 3 ∧ tri.2.1 < 3 ∧ tri.2.2 < 3 ∧
        [((0 : Rat), (0 : Rat)), ((4 : Rat), (0 : Rat)),
          ((0 : Rat), (4 : Rat))][tri.1]? = some tr.1 ∧
        [((0 : Rat), (0 : Rat)), ((4 : Rat), (0 : Rat)),
          ((0 : Rat), (4 : Rat))][tri.2.1]? = some tr.2.1 ∧
        [((0 : Rat), (0 : Rat)), ((4 : Rat), (0 : Rat)),
          ((0 : Rat), (4 : Rat))][tri.2.2]? = some tr.2.2 ∧
        tri.1 ≠ tri.2.1 ∧ tri.1 ≠ tri.2.2 ∧ tri.2.1 ≠ tri.2.2) :=
  c8_subdivision_indexing
    [((0 : Rat), (0 : Rat)), ((4 : Rat), (0 : Rat)), ((0 : Rat), (4 : Rat))]
    [((100 : Rat), (100 : Rat))]
    [(((0 : Rat), (0 : Rat)), ((4 : Rat), (0 : Rat)), ((0 : Rat), (4 : Rat))),
     (((100 : Rat), (100 : Rat)), ((4 : Rat), (0 : Rat)), ((0 : Rat), (4 : Rat)))]
    (by decide) (by decide)

/-! ### Claim C9 -/

/-- A document declaring both map sizes as `(0, 0)` that is otherwise valid. -/
def c9doc : YamlDoc :=
  { ref_map := { name := "ref", image_file := none, size := (0, 0),
                 corr_points := [(0, 0)] }
    robot_map := { name := "rob", image_file := none, size := (0, 0),
                   corr_points := [(0, 0)] }
    robot_transform := none }

unseal Rat.add Rat.sub Rat.mul Rat.inv in
/-- Claim C9, counterexample.  `c9doc` declares both map sizes `(0, 0)`, yet
validation accepts it and the whole load succeeds: `_validate` contains no
map-size check at all, so a zero declared map size is not rejected during
load. -/
theorem c9_counterexample :
    c9doc.ref_map.size = ((0 : Rat), (0 : Rat)) ∧
    c9doc.robot_map.size = ((0 : Rat), (0 : Rat)) ∧
    (Transformer.stateFromDoc c9doc).validate noFS = none ∧
    (Transformer.load noFS [] Transformer.fresh c9doc).2 = none := by
  decide

/-- Claim C9 (amended): validation performs no map-size check; on a
configuration without image files it succeeds exactly when the correspondence
lists are non-empty and of equal length, the translated rectangles overlap,
and both scale components are non-zero — sizes enter only through the overlap
inequalities, never through a positivity test.  The checks run in source
order: the correspondence-list checks first (an empty reference list wins over
every other failure), then rectangle overlap, then scale (an overlapping
failure wins over a zero scale), then the image checks; the first failing
check produces the single error.  Missing sizes are rejected earlier, while
the document fields are parsed, outside the validator. -/
theorem c9_amended (fs : ImageFS) (t : Transformer)
    (hri : t.ref_map_image_file = "") (hrb : t.robot_map_image_file = "") :
    (t.validate fs = none ↔
      (t.ref_corr_points ≠ [] ∧ t.robot_corr_points ≠ [] ∧
       t.ref_corr_points.length = t.robot_corr_points.length ∧
       ¬ (t.robot_map_translation.1 > t.ref_map_size.1 ∨
          t.robot_map_translation.2 > t.ref_map_size.2 ∨
          t.robot_map_translation.1 + t.robot_map_size.1 < 0 ∨
          t.robot_map_translation.2 + t.robot_map_size.2 < 0) ∧
       t.robot_map_scale.1 ≠ 0 ∧ t.robot_map_scale.2 ≠ 0)) ∧
    (t.ref_corr_points = [] →
      t.validate fs =
        some (.inputFault ("No reference map correspondence points provided"))) ∧
    (t.ref_corr_points ≠ [] → t.robot_corr_points ≠ [] →
      t.ref_corr_points.length = t.robot_corr_points.length →
      (t.robot_map_translation.1 > t.ref_map_size.1 ∨
       t.robot_map_translation.2 > t.ref_map_size.2 ∨
       t.robot_map_translation.1 + t.robot_map_size.1 < 0 ∨
       t.robot_map_translation.2 + t.robot_map_size.2 < 0) →
      t.validate fs =
        some (.inputFault ("Reference map and robot map do not overlap"))) := by
  refine ⟨⟨fun h => ?_, fun h => ?_⟩, fun hx => ?_, fun h1 h2 h3 hov => ?_⟩
  · exact validate_none_facts fs t h
  · obtain ⟨h1, h2, h3, hov, hs1, hs2⟩ := h
    simp [Transformer.validate, h1, h2, h3, hov, hri, hrb, hs1, hs2]
  · simp [Transformer.validate, hx]
  · simp [Transformer.validate, h1, h2, h3, hov]

/-- A state with one correspondence pair and no image files, for the C9
witness. -/
def c9state : Transformer :=
  { Transformer.fresh with
    ref_corr_points := [(0, 0)]
    robot_corr_points := [(0, 0)] }

unseal Rat.add Rat.sub Rat.mul Rat.inv in
/-- Witness for C9 (amended) at `c9state` (whose map sizes are zero). -/
theorem c9_amended_witness :
    (c9state.validate noFS = none ↔
      (c9state.ref_corr_points ≠ [] ∧ c9state.robot_corr_points ≠ [] ∧
       c9state.ref_corr_points.length = c9state.robot_corr_points.length ∧
       ¬ (c9state.robot_map_translation.1 > c9state.ref_map_size.1 ∨
          c9state.robot_map_translation.2 > c9state.ref_map_size.2 ∨
          c9state.robot_map_translation.1 + c9state.robot_map_size.1 < 0 ∨
          c9state.robot_map_translation.2 + c9state.robot_map_size.2 < 0) ∧
       c9state.robot_map_scale.1 ≠ 0 ∧ c9state.robot_map_scale.2 ≠ 0)) ∧
    (c9state.ref_corr_points = [] →
      c9state.validate noFS =
        some (.inputFault ("No reference map correspondence points provided"))) ∧
    (c9state.ref_corr_points ≠ [] → c9state.robot_corr_points ≠ [] →
      c9state.ref_corr_points.length = c9state.robot_corr_points.length →
      (c9state.robot_map_translation.1 > c9state.ref_map_size.1 ∨
       c9state.robot_map_translation.2 > c9state.ref_map_size.2 ∨
       c9state.robot_map_translation.1 + c9state.robot_map_size.1 < 0 ∨
       c9state.robot_map_translation.2 + c9state.robot_map_size.2 < 0) →
      c9state.validate noFS =
        some (.inputFault ("Reference map and robot map do not overlap"))) :=
  c9_amended noFS c9state rfl rfl

/-! ### Claim C10 -/

/-- Claim C10: on every successfully loaded instance both scale components
are non-zero (validation rejected zero scales before the instance became
loaded), and under that precondition the divisions in the global-affine
fallback path of `to_robot` are well defined: the scaled point computed by
`transform_from_ref_by_map_transform` is the exact solution of the scaling
equations. -/
theorem c10_no_zero_division (fs : ImageFS) (raw : List RawTri) (doc : YamlDoc)
    (t : Transformer)
    (hload : Transformer.load fs raw Transformer.fresh doc = (t, none)) :
    t.robot_map_scale.1 ≠ 0 ∧ t.robot_map_scale.2 ≠ 0 ∧
    (∀ (cF sF : Rat → Rat) (p : Point2D), ∃ q : Point2D,
      q.1 * t.robot_map_scale.1 = p.1 ∧ q.2 * t.robot_map_scale.2 = p.2 ∧
      t.transform_from_ref_by_map_transform cF sF p =
        ((if t.robot_map_rotation ≠ 0 then
            ((cF (-t.robot_map_rotation) * q.1 - sF (-t.robot_map_rotation) * q.2,
              sF (-t.robot_map_rotation) * q.1 + cF (-t.robot_map_rotation) * q.2) :
              Point2D)
          else q).1 - t.robot_map_translation.1,
         (if t.robot_map_rotation ≠ 0 then
            ((cF (-t.robot_map_rotation) * q.1 - sF (-t.robot_map_rotation) * q.2,
              sF (-t.robot_map_rotation) * q.1 + cF (-t.robot_map_rotation) * q.2) :
              Point2D)
          else q).2 - t.robot_map_translation.2)) := by
  obtain ⟨hs1, hs2⟩ := load_success_scale fs raw doc t hload
  refine ⟨hs1, hs2, ?_⟩
  intro cF sF p
  exact ⟨(p.1 / t.robot_map_scale.1, p.2 / t.robot_map_scale.2),
    div_mul_cancel₀ p.1 hs1, div_mul_cancel₀ p.2 hs2, rfl⟩

/-- A document with a non-trivial scale `(2, 3)` for the C10 witness. -/
def c10doc : YamlDoc :=
  { ref_map := { name := "ref", image_file := none, size := (10, 10),
                 corr_points := [(5, 5)] }
    robot_map := { name := "rob", image_file := none, size := (10, 10),
                   corr_points := [(5, 5)] }
    robot_transform := some { scale := (2, 3), rot := 0, translation := (0, 0) } }

/-- The instance obtained by loading `c10doc`. -/
def c10state : Transformer := (Transformer.load noFS [] Transformer.fresh c10doc).1

unseal Rat.add Rat.sub Rat.mul Rat.inv in
/-- Witness for C10 at the loaded `c10doc` instance. -/
theorem c10_no_zero_division_witness :
    c10state.robot_map_scale.1 ≠ 0 ∧ c10state.robot_map_scale.2 ≠ 0 ∧
    (∀ (cF sF : Rat → Rat) (p : Point2D), ∃ q : Point2D,
      q.1 * c10state.robot_map_scale.1 = p.1 ∧
      q.2 * c10state.robot_map_scale.2 = p.2 ∧
      c10state.transform_from_ref_by_map_transform cF sF p =
        ((if c10state.robot_map_rotation ≠ 0 then
            ((cF (-c10state.robot_map_rotation) * q.1 -
                sF (-c10state.robot_map_rotation) * q.2,
              sF (-c10state.robot_map_rotation) * q.1 +
                cF (-c10state.robot_map_rotation) * q.2) : Point2D)
          else q).1 - c10state.robot_map_translation.1,
         (if c10state.robot_map_rotation ≠ 0 then
            ((cF (-c10state.robot_map_rotation) * q.1 -
                sF (-c10state.robot_map_rotation) * q.2,
              sF (-c10state.robot_map_rotation) * q.1 +
                cF (-c10state.robot_map_rotation) * q.2) : Point2D)
          else q).2 - c10state.robot_map_translation.2)) :=
  c10_no_zero_division noFS [] c10doc c10state (by decide)

end MapTransformer
